import Mathlib

/-!
Shallow embedding of `run_strategy.py`: the execution-mode dispatcher of the
`run_strategy` repository.  Python datetimes are modelled as rationals (days,
fractional part for time of day), Python classes and modules as records, and
the effectful paths of the script as explicit outcome values.
-/

namespace RunStrategy

/-- A Python class object as seen by `inspect.getmembers`: its binding name in
the module namespace and its `__module__` attribute. -/
structure PyClass where
  name : String
  module : String
deriving DecidableEq, Repr

/-- A loaded Python module: its `__name__` and its class-valued attributes in
declaration order (the order class statements execute in the module body). -/
structure Module where
  name : String
  classes : List PyClass
deriving DecidableEq, Repr

/-- Code-point comparison of strings as lists of characters, the order Python
uses for `str` and `inspect.getmembers` uses to sort member names. -/
def charListLe : List Char → List Char → Bool
  | [], _ => true
  | _ :: _, [] => false
  | a :: as, b :: bs =>
    if a.toNat < b.toNat then true
    else if b.toNat < a.toNat then false
    else charListLe as bs

/-- Order on classes by binding name (the sort key of `inspect.getmembers`). -/
def classLe (a b : PyClass) : Bool :=
  charListLe a.name.data b.name.data

/-- Insert a class into a name-sorted list, preserving sortedness. -/
def insertByName (c : PyClass) : List PyClass → List PyClass
  | [] => [c]
  | d :: ds => if classLe c d then c :: d :: ds else d :: insertByName c ds

/-- Sort classes by binding name, as `inspect.getmembers` returns members
sorted by name. -/
def sortByName : List PyClass → List PyClass
  | [] => []
  | c :: cs => insertByName c (sortByName cs)

/-- `find_strategy_class(module)`: iterate over
`inspect.getmembers(module, inspect.isclass)` — the module's classes sorted by
binding name — and return the first whose `__module__` equals the module's
`__name__`; `None` when there is none. -/
def find_strategy_class (m : Module) : Option PyClass :=
  (sortByName m.classes).find? (fun obj => obj.module == m.name)

/-- Selection rule in the spec's words: the first qualifying class in
declaration order.  Stated only to compare with `find_strategy_class`. -/
def find_strategy_class_declared (m : Module) : Option PyClass :=
  m.classes.find? (fun obj => obj.module == m.name)

/-- Opaque credential blobs imported from `credentials.py`. -/
def INTERACTIVE_BROKERS_CONFIG : String := "INTERACTIVE_BROKERS_CONFIG"

/-- Kraken credential blob from `credentials.py`. -/
def KRAKEN_CONFIG : String := "KRAKEN_CONFIG"

/-- Polygon API key from `credentials.py` (`POLYGON_CONFIG["API_KEY"]`). -/
def POLYGON_API_KEY : String := "POLYGON_API_KEY"

/-- A live broker connection object, tagged by which lumibot connector class
was instantiated and with which credential blob. -/
inductive Broker
  | InteractiveBrokers (config : String)
  | Ccxt (config : String)
deriving DecidableEq, Repr

/-- Python exception classes relevant to this script (messages elided). -/
inductive PyError
  | TypeError
  | ValueError
deriving DecidableEq, Repr

/-- `configure_broker(broker_choice)`: return an `InteractiveBrokers`
connection for `IB`, a `Ccxt` (Kraken) connection for `Kraken`, and raise
`ValueError` for anything else. -/
def configure_broker (broker_choice : String) : Except PyError Broker :=
  if broker_choice = "IB" then
    Except.ok (Broker.InteractiveBrokers INTERACTIVE_BROKERS_CONFIG)
  else if broker_choice = "Kraken" then
    Except.ok (Broker.Ccxt KRAKEN_CONFIG)
  else
    Except.error PyError.ValueError

/-- A `lumibot.entities.TradingFee` value. -/
structure TradingFee where
  percent_fee : ℚ
deriving DecidableEq, Repr

/-- The full argument record of the `strategy_class.backtest(...)` call. -/
structure BacktestCall where
  backtesting_start : ℚ
  backtesting_end : ℚ
  polygon_api_key : String
  polygon_has_paid_subscription : Bool
  risk_free_rate : ℚ
  buy_trading_fees : List TradingFee
  sell_trading_fees : List TradingFee
  logfile : String
  parameters : List (String × String)
deriving DecidableEq, Repr

/-- `s.lower()`: character-wise lowercasing of the string. -/
def str_lower (s : String) : String :=
  String.mk (s.data.map Char.toLower)

/-- Outcome of one `run_strategy` call.  `cancelled` is the branch that prints
the cancellation notice ("Operation cancelled.") and returns; `liveStarted`
would be reaching `trader.run_all()` with a constructed broker; `raised` is an
exception escaping the function. -/
inductive RunOutcome
  | cancelled
  | liveStarted (strategy : PyClass) (broker : Broker)
  | backtestStarted (strategy : PyClass) (call : BacktestCall)
  | raised (e : PyError)
deriving DecidableEq, Repr

/-- The backtest window computation inlined in `run_strategy` (source lines
62-69): `yesterday = now - 1 day`, `one_year_from_yesterday = yesterday - 365
days`, a supplied bound is used verbatim and a missing bound is defaulted. -/
def run_window (now : ℚ) (start_date end_date : Option ℚ) : ℚ × ℚ :=
  let yesterday := now - 1
  let one_year_from_yesterday := yesterday - 365
  let backtesting_start :=
    match start_date with
    | some d => d
    | none => one_year_from_yesterday
  let backtesting_end :=
    match end_date with
    | some d => d
    | none => yesterday
  (backtesting_start, backtesting_end)

/-- `run_strategy(strategy_class, is_live, broker_choice, start_date,
end_date)`.  Extra explicit inputs: the operator's answer to the confirmation
prompt, the current time, and the global `module_name` read inside the
backtest branch.  In the live path the source (line 52) calls
`configure_broker()` without its required positional argument, so Python
raises `TypeError` there before any broker is constructed. -/
def run_strategy (strategy_class : PyClass) (is_live : Bool)
    (broker_choice : String) (start_date end_date : Option ℚ)
    (confirm_input : String) (now : ℚ) (module_name : String) : RunOutcome :=
  if is_live then
    let confirm := str_lower confirm_input
    if confirm ≠ "yes" then
      RunOutcome.cancelled
    else
      RunOutcome.raised PyError.TypeError
  else
    let w := run_window now start_date end_date
    let trading_fee : TradingFee := ⟨0.005⟩
    let risk_free_rate : ℚ := 5.233
    RunOutcome.backtestStarted strategy_class
      { backtesting_start := w.1
        backtesting_end := w.2
        polygon_api_key := POLYGON_API_KEY
        polygon_has_paid_subscription := true
        risk_free_rate := risk_free_rate
        buy_trading_fees := [trading_fee]
        sell_trading_fees := [trading_fee]
        logfile := "logs/" ++ module_name ++ ".log"
        parameters := [] }

/-- `strategy_file.rsplit(".", 1)[0]`: everything before the last dot, or the
whole string when it has no dot. -/
def rsplit_head (s : String) : String :=
  match s.data.reverse.dropWhile (· ≠ '.') with
  | [] => s
  | _ :: rest => String.mk rest.reverse

/-- Gregorian leap-year test, as `datetime.date` uses. -/
def isLeap (y : Nat) : Bool :=
  y % 4 == 0 && (y % 100 != 0 || y % 400 == 0)

/-- Length of month `m` of year `y`. -/
def daysInMonth (y m : Nat) : Nat :=
  if m = 2 then (if isLeap y then 29 else 28)
  else if m = 4 ∨ m = 6 ∨ m = 9 ∨ m = 11 then 30
  else 31

/-- Days in all years before year `y` (proleptic Gregorian). -/
def daysBeforeYear (y : Nat) : Nat :=
  365 * (y - 1) + (y - 1) / 4 - (y - 1) / 100 + (y - 1) / 400

/-- Days in the months of year `y` before month `m`. -/
def daysBeforeMonth (y m : Nat) : Nat :=
  (List.range (m - 1)).foldl (fun acc i => acc + daysInMonth y (i + 1)) 0

/-- `date(y, m, d).toordinal()`: day 1 is January 1 of year 1. -/
def toOrdinal (y m d : Nat) : Nat :=
  daysBeforeYear y + daysBeforeMonth y m + d

/-- Decimal value of a digit list. -/
def digitsToNat (l : List Char) : Nat :=
  l.foldl (fun a c => 10 * a + (c.toNat - 48)) 0

/-- `datetime.strptime(s, "%Y-%m-%d")`: exactly four year digits, one or two
month digits in 1..12, one or two day digits valid for that month, nothing
left over; `none` models the `ValueError` raised otherwise. -/
def strptime_date (s : String) : Option ℚ :=
  let l := s.data
  let ys := l.takeWhile Char.isDigit
  let r1 := l.dropWhile Char.isDigit
  if ys.length = 4 then
    match r1 with
    | '-' :: r2 =>
      let ms := r2.takeWhile Char.isDigit
      let r3 := r2.dropWhile Char.isDigit
      if ms.length = 1 ∨ ms.length = 2 then
        match r3 with
        | '-' :: r4 =>
          let ds := r4.takeWhile Char.isDigit
          let r5 := r4.dropWhile Char.isDigit
          if (ds.length = 1 ∨ ds.length = 2) ∧ r5 = [] then
            let y := digitsToNat ys
            let m := digitsToNat ms
            let d := digitsToNat ds
            if 1 ≤ y ∧ 1 ≤ m ∧ m ≤ 12 ∧ 1 ≤ d ∧ d ≤ daysInMonth y m then
              some ((toOrdinal y m d : ℚ))
            else none
          else none
        | _ => none
      else none
    | _ => none
  else none

/-- `datetime.strptime(args.start, "%Y-%m-%d") if args.start else None`: an
absent or empty (falsy) argument yields `None`; a nonempty argument is parsed,
a parse failure being an uncaught `ValueError`. -/
def parse_date_arg : Option String → Except PyError (Option ℚ)
  | none => Except.ok none
  | some s =>
    if s = "" then Except.ok none
    else
      match strptime_date s with
      | some d => Except.ok (some d)
      | none => Except.error PyError.ValueError

/-- Result of `importlib.import_module(module_name)` in the `__main__` block:
either the loaded module or an `ImportError` with its message. -/
inductive ResolveResult
  | ok (strategy_module : Module)
  | importError (msg : String)
deriving DecidableEq, Repr

/-- Outcome of the whole `__main__` block.  `exitError` is the
`except ImportError` handler: print the message, `exit(1)`.
`uncaughtException` is an exception escaping the block (nonzero process exit
via traceback, no handler message). -/
inductive MainOutcome
  | exitError (msg : String)
  | uncaughtException (e : PyError)
  | ran (outcome : RunOutcome)
deriving DecidableEq, Repr

/-- The `__main__` block: compute `module_name`, resolve the strategy class
(exit 1 with a message on failure), parse the optional date arguments
(uncaught `ValueError` on a malformed one), then call `run_strategy`. -/
def mainFlow (resolve : ResolveResult) (live : Bool) (broker : String)
    (start_arg end_arg : Option String) (confirm_input : String) (now : ℚ)
    (strategy_file : String) : MainOutcome :=
  let module_name := rsplit_head strategy_file
  match resolve with
  | ResolveResult.importError msg =>
    MainOutcome.exitError ("Error importing strategy: " ++ msg)
  | ResolveResult.ok strategy_module =>
    match find_strategy_class strategy_module with
    | none =>
      MainOutcome.exitError
        ("Error importing strategy: No strategy class found in the module "
          ++ module_name ++ ".")
    | some strategy_class =>
      match parse_date_arg start_arg with
      | Except.error e => MainOutcome.uncaughtException e
      | Except.ok start_date =>
        match parse_date_arg end_arg with
        | Except.error e => MainOutcome.uncaughtException e
        | Except.ok end_date =>
          MainOutcome.ran (run_strategy strategy_class live broker
            start_date end_date confirm_input now module_name)

/-- Whether a `BrokerConnection` was constructed on this run path. -/
def brokerConstructed : RunOutcome → Bool
  | RunOutcome.liveStarted _ _ => true
  | _ => false

/-- Whether the live trading runner was started on this run path. -/
def runnerStarted : RunOutcome → Bool
  | RunOutcome.liveStarted _ _ => true
  | _ => false

/-- Whether the backtest engine was invoked on this run path. -/
def backtestInvoked : RunOutcome → Bool
  | RunOutcome.backtestStarted _ _ => true
  | _ => false

/-- Number of sessions (live or backtest) created on this run path. -/
def sessionsCreated : RunOutcome → Nat
  | RunOutcome.liveStarted _ _ => 1
  | RunOutcome.backtestStarted _ _ => 1
  | _ => 0

/-- Lift of `brokerConstructed` to the whole process. -/
def mainBrokerConstructed : MainOutcome → Bool
  | MainOutcome.ran o => brokerConstructed o
  | _ => false

/-- Lift of `runnerStarted` to the whole process. -/
def mainRunnerStarted : MainOutcome → Bool
  | MainOutcome.ran o => runnerStarted o
  | _ => false

/-- Lift of `backtestInvoked` to the whole process. -/
def mainBacktestInvoked : MainOutcome → Bool
  | MainOutcome.ran o => backtestInvoked o
  | _ => false

/-- Lift of `sessionsCreated` to the whole process. -/
def mainSessionsCreated : MainOutcome → Nat
  | MainOutcome.ran o => sessionsCreated o
  | _ => 0

/-- Process exit status: 1 for the handled resolution failure and for any
uncaught exception, 0 when the script runs to completion. -/
def exitStatus : MainOutcome → Nat
  | MainOutcome.exitError _ => 1
  | MainOutcome.uncaughtException _ => 1
  | MainOutcome.ran (RunOutcome.raised _) => 1
  | MainOutcome.ran _ => 0

/-- A sample resolved module: one strategy class defined in it. -/
def sampleModule : Module :=
  ⟨"my_strategy", [⟨"MyStrategy", "my_strategy"⟩]⟩

end RunStrategy

namespace RunStrategy

/-- A module with no class defined directly in it (only an import). -/
def emptyModule : Module :=
  ⟨"empty_mod", [⟨"Imported", "other_mod"⟩]⟩

/-- A module defining two strategy classes, the alphabetically later one
first in declaration order. -/
def twoStrategyModule : Module :=
  ⟨"m", [⟨"Zebra", "m"⟩, ⟨"Alpha", "m"⟩]⟩

theorem charListLe_refl (a : List Char) : charListLe a a = true := by
  induction a with
  | nil => rfl
  | cons x xs ih =>
    simp only [charListLe]
    rw [if_neg (by omega), if_neg (by omega)]
    exact ih

theorem charListLe_total (a : List Char) :
    ∀ b, charListLe a b = true ∨ charListLe b a = true := by
  induction a with
  | nil => intro b; exact Or.inl rfl
  | cons x xs ih =>
    intro b
    cases b with
    | nil => exact Or.inr rfl
    | cons y ys =>
      simp only [charListLe]
      rcases Nat.lt_trichotomy x.toNat y.toNat with h | h | h
      · left; rw [if_pos h]
      · rw [if_neg (by omega), if_neg (by omega), if_neg (by omega),
          if_neg (by omega)]
        exact ih ys
      · right; rw [if_pos h]

theorem charListLe_trans (a : List Char) :
    ∀ b c, charListLe a b = true → charListLe b c = true →
      charListLe a c = true := by
  induction a with
  | nil => intro b c _ _; rfl
  | cons x xs ih =>
    intro b c h1 h2
    cases b with
    | nil => simp [charListLe] at h1
    | cons y ys =>
      cases c with
      | nil => simp [charListLe] at h2
      | cons z zs =>
        simp only [charListLe] at h1 h2 ⊢
        by_cases hyx : y.toNat < x.toNat
        · rw [if_neg (by omega), if_pos hyx] at h1
          simp at h1
        · by_cases hzy : z.toNat < y.toNat
          · rw [if_neg (by omega), if_pos hzy] at h2
            simp at h2
          · by_cases hxy : x.toNat < y.toNat
            · rw [if_pos (by omega)]
            · by_cases hyz : y.toNat < z.toNat
              · rw [if_pos (by omega)]
              · rw [if_neg hxy, if_neg hyx] at h1
                rw [if_neg hyz, if_neg hzy] at h2
                rw [if_neg (by omega), if_neg (by omega)]
                exact ih ys zs h1 h2

theorem classLe_refl (a : PyClass) : classLe a a = true :=
  charListLe_refl a.name.data

theorem classLe_total (a b : PyClass) :
    classLe a b = true ∨ classLe b a = true :=
  charListLe_total a.name.data b.name.data

theorem classLe_trans {a b c : PyClass} (h1 : classLe a b = true)
    (h2 : classLe b c = true) : classLe a c = true :=
  charListLe_trans a.name.data b.name.data c.name.data h1 h2

theorem mem_insertByName (a c : PyClass) :
    ∀ l, a ∈ insertByName c l ↔ a = c ∨ a ∈ l := by
  intro l
  induction l with
  | nil => simp [insertByName]
  | cons d ds ih =>
    simp only [insertByName]
    by_cases hcd : classLe c d = true
    · rw [if_pos hcd]
      simp
    · rw [if_neg hcd]
      simp only [List.mem_cons, ih]
      tauto

theorem mem_sortByName (a : PyClass) :
    ∀ l, a ∈ sortByName l ↔ a ∈ l := by
  intro l
  induction l with
  | nil => simp [sortByName]
  | cons c cs ih =>
    simp only [sortByName, mem_insertByName, ih, List.mem_cons]

theorem pairwise_insertByName (c : PyClass) :
    ∀ l, List.Pairwise (fun a b => classLe a b = true) l →
      List.Pairwise (fun a b => classLe a b = true) (insertByName c l) := by
  intro l
  induction l with
  | nil =>
    intro _
    exact List.pairwise_cons.mpr ⟨by simp, List.Pairwise.nil⟩
  | cons d ds ih =>
    intro hp
    rcases List.pairwise_cons.mp hp with ⟨hd, hds⟩
    simp only [insertByName]
    by_cases hcd : classLe c d = true
    · rw [if_pos hcd]
      refine List.pairwise_cons.mpr ⟨?_, hp⟩
      intro b hb
      rcases List.mem_cons.mp hb with rfl | hb
      · exact hcd
      · exact classLe_trans hcd (hd b hb)
    · rw [if_neg hcd]
      have hdc : classLe d c = true := by
        rcases classLe_total c d with h | h
        · exact absurd h hcd
        · exact h
      refine List.pairwise_cons.mpr ⟨?_, ih hds⟩
      intro b hb
      rcases (mem_insertByName b c ds).mp hb with rfl | hb
      · exact hdc
      · exact hd b hb

theorem pairwise_sortByName :
    ∀ l, List.Pairwise (fun a b => classLe a b = true) (sortByName l) := by
  intro l
  induction l with
  | nil => exact List.Pairwise.nil
  | cons c cs ih => exact pairwise_insertByName c (sortByName cs) ih

theorem find_min_of_sorted (p : PyClass → Bool) :
    ∀ l : List PyClass, List.Pairwise (fun a b => classLe a b = true) l →
      ∀ c, l.find? p = some c → ∀ d ∈ l, p d = true → classLe c d = true := by
  intro l
  induction l with
  | nil => intro _ c h; simp [List.find?] at h
  | cons a as ih =>
    intro hp c hfind d hd hpd
    rcases List.pairwise_cons.mp hp with ⟨ha, has⟩
    by_cases hpa : p a = true
    · rw [List.find?_cons_of_pos _ hpa] at hfind
      injection hfind with h
      subst h
      rcases List.mem_cons.mp hd with rfl | hd
      · exact classLe_refl _
      · exact ha d hd
    · rw [List.find?_cons_of_neg _ (by simpa using hpa)] at hfind
      rcases List.mem_cons.mp hd with rfl | hd
      · exact absurd hpd hpa
      · exact ih has c hfind d hd hpd

end RunStrategy

namespace RunStrategy

theorem mainFlow_ok_reduce (m : Module) (cls : PyClass) (live : Bool)
    (broker : String) (sarg earg : Option String) (sd ed : Option ℚ)
    (confirm : String) (now : ℚ) (sf : String)
    (hfind : find_strategy_class m = some cls)
    (hs : parse_date_arg sarg = Except.ok sd)
    (he : parse_date_arg earg = Except.ok ed) :
    mainFlow (ResolveResult.ok m) live broker sarg earg confirm now sf
      = MainOutcome.ran
          (run_strategy cls live broker sd ed confirm now (rsplit_head sf)) := by
  simp only [mainFlow, hfind, hs, he]

/-- C3: a user-supplied bound is returned verbatim by the run-window
computation, and a missing bound is defaulted from "yesterday" alone: a
missing end is `now - 1` and a missing start is `now - 1 - 365`, regardless of
the other, supplied bound. -/
theorem run_window_supplied_bounds (now s e : ℚ) :
    run_window now (some s) (some e) = (s, e) ∧
    run_window now (some s) none = (s, now - 1) ∧
    run_window now none (some e) = (now - 1 - 365, e) :=
  ⟨rfl, rfl, rfl⟩

/-- C4: with neither bound supplied, the computed window ends at `now - 1`
(yesterday) and starts 365 days before that end. -/
theorem run_window_defaults (now : ℚ) :
    (run_window now none none).2 = now - 1 ∧
    (run_window now none none).1 = (run_window now none none).2 - 365 :=
  ⟨rfl, rfl⟩

/-- C8: `configure_broker` returns an InteractiveBrokers connection for `IB`,
a Ccxt (Kraken) connection for `Kraken`, and raises `ValueError` for every
other choice. -/
theorem configure_broker_cases (b : String) :
    configure_broker "IB"
      = Except.ok (Broker.InteractiveBrokers INTERACTIVE_BROKERS_CONFIG) ∧
    configure_broker "Kraken" = Except.ok (Broker.Ccxt KRAKEN_CONFIG) ∧
    (b ≠ "IB" → b ≠ "Kraken" →
      configure_broker b = Except.error PyError.ValueError) := by
  refine ⟨rfl, rfl, ?_⟩
  intro h1 h2
  simp [configure_broker, h1, h2]

theorem configure_broker_cases_witness :
    configure_broker "Coinbase" = Except.error PyError.ValueError :=
  (configure_broker_cases "Coinbase").2.2 (by decide) (by decide)

/-- C1: on a live invocation with broker `IB` and the confirmation answered
"yes", the source calls `configure_broker()` without its required argument, so
the run raises `TypeError`: no BrokerConnection is constructed, the live
runner never starts, and the process exits nonzero — the dispatcher never
reaches the LiveRun state the spec describes. -/
theorem live_ib_confirmed_raises_typeerror :
    mainFlow (ResolveResult.ok sampleModule) true "IB" none none "yes" 0
        "my_strategy.py"
      = MainOutcome.ran (RunOutcome.raised PyError.TypeError) ∧
    mainBrokerConstructed (mainFlow (ResolveResult.ok sampleModule) true "IB"
      none none "yes" 0 "my_strategy.py") = false ∧
    mainRunnerStarted (mainFlow (ResolveResult.ok sampleModule) true "IB"
      none none "yes" 0 "my_strategy.py") = false ∧
    exitStatus (mainFlow (ResolveResult.ok sampleModule) true "IB" none none
      "yes" 0 "my_strategy.py") = 1 := by
  decide

/-- C2: on a live invocation, any prompt answer other than a case-insensitive
"yes" makes the dispatcher print the cancellation notice and return: the
process exits with status zero, and neither a BrokerConnection nor the live
runner nor the backtest engine is touched. -/
theorem live_declined_cancels (m : Module) (cls : PyClass)
    (broker confirm sf : String) (sarg earg : Option String)
    (sd ed : Option ℚ) (now : ℚ)
    (hfind : find_strategy_class m = some cls)
    (hs : parse_date_arg sarg = Except.ok sd)
    (he : parse_date_arg earg = Except.ok ed)
    (hno : str_lower confirm ≠ "yes") :
    mainFlow (ResolveResult.ok m) true broker sarg earg confirm now sf
      = MainOutcome.ran RunOutcome.cancelled ∧
    exitStatus (mainFlow (ResolveResult.ok m) true broker sarg earg confirm
      now sf) = 0 ∧
    mainBrokerConstructed (mainFlow (ResolveResult.ok m) true broker sarg earg
      confirm now sf) = false ∧
    mainRunnerStarted (mainFlow (ResolveResult.ok m) true broker sarg earg
      confirm now sf) = false ∧
    mainBacktestInvoked (mainFlow (ResolveResult.ok m) true broker sarg earg
      confirm now sf) = false := by
  have h : mainFlow (ResolveResult.ok m) true broker sarg earg confirm now sf
      = MainOutcome.ran RunOutcome.cancelled := by
    rw [mainFlow_ok_reduce m cls true broker sarg earg sd ed confirm now sf
      hfind hs he]
    simp only [run_strategy]
    simp [hno]
  refine ⟨h, ?_, ?_, ?_, ?_⟩ <;> rw [h] <;> rfl

theorem live_declined_cancels_witness :
    mainFlow (ResolveResult.ok sampleModule) true "Kraken" none none "No" 0
        "my_strategy.py"
      = MainOutcome.ran RunOutcome.cancelled ∧
    exitStatus (mainFlow (ResolveResult.ok sampleModule) true "Kraken" none
      none "No" 0 "my_strategy.py") = 0 ∧
    mainBrokerConstructed (mainFlow (ResolveResult.ok sampleModule) true
      "Kraken" none none "No" 0 "my_strategy.py") = false ∧
    mainRunnerStarted (mainFlow (ResolveResult.ok sampleModule) true "Kraken"
      none none "No" 0 "my_strategy.py") = false ∧
    mainBacktestInvoked (mainFlow (ResolveResult.ok sampleModule) true
      "Kraken" none none "No" 0 "my_strategy.py") = false :=
  live_declined_cancels sampleModule ⟨"MyStrategy", "my_strategy"⟩ "Kraken"
    "No" "my_strategy.py" none none none none 0 (by decide) rfl rfl (by decide)

end RunStrategy

namespace RunStrategy

/-- C5 counterexample: in a module declaring `Zebra` before `Alpha` (both
defined directly in it), the resolver returns `Alpha` — the alphabetically
first name — while the first candidate in declaration order is `Zebra`. -/
theorem find_strategy_class_not_declaration_order :
    find_strategy_class twoStrategyModule = some ⟨"Alpha", "m"⟩ ∧
    find_strategy_class_declared twoStrategyModule = some ⟨"Zebra", "m"⟩ ∧
    (⟨"Alpha", "m"⟩ : PyClass) ≠ ⟨"Zebra", "m"⟩ := by
  decide

/-- C5 (amended): the resolver selects a class defined directly in the module
(classes imported from elsewhere are excluded), and among those candidates it
returns one whose binding name is alphabetically least — the first member in
`inspect.getmembers` name order, not in declaration order; it returns `None`
exactly when the module has no directly defined class. -/
theorem find_strategy_class_min_name (m : Module) :
    (∀ c, find_strategy_class m = some c →
      c ∈ m.classes ∧ c.module = m.name ∧
      ∀ d ∈ m.classes, d.module = m.name → classLe c d = true) ∧
    (find_strategy_class m = none → ∀ d ∈ m.classes, d.module ≠ m.name) := by
  constructor
  · intro c hc
    simp only [find_strategy_class] at hc
    have hmem := List.mem_of_find?_eq_some hc
    have hp := List.find?_some hc
    refine ⟨(mem_sortByName c m.classes).mp hmem, by simpa using hp, ?_⟩
    intro d hd hdm
    exact find_min_of_sorted _ (sortByName m.classes)
      (pairwise_sortByName m.classes) c hc d
      ((mem_sortByName d m.classes).mpr hd) (by simpa using hdm)
  · intro hn d hd hdm
    simp only [find_strategy_class] at hn
    have := List.find?_eq_none.mp hn d ((mem_sortByName d m.classes).mpr hd)
    exact this (by simpa using hdm)

theorem find_strategy_class_min_name_witness :
    (⟨"Alpha", "m"⟩ : PyClass) ∈ twoStrategyModule.classes ∧
    (⟨"Alpha", "m"⟩ : PyClass).module = twoStrategyModule.name ∧
    ∀ d ∈ twoStrategyModule.classes, d.module = twoStrategyModule.name →
      classLe ⟨"Alpha", "m"⟩ d = true :=
  (find_strategy_class_min_name twoStrategyModule).1 ⟨"Alpha", "m"⟩ (by decide)

/-- C6: when strategy resolution fails — the module raises `ImportError` on
import, or the loaded module contains no qualifying class — the process prints
an error message and exits with status 1, before any broker or backtest logic
runs. -/
theorem resolution_failure_exits_nonzero (msg : String) (m : Module)
    (live : Bool) (broker : String) (sarg earg : Option String)
    (confirm : String) (now : ℚ) (sf : String) :
    (mainFlow (ResolveResult.importError msg) live broker sarg earg confirm
        now sf
      = MainOutcome.exitError ("Error importing strategy: " ++ msg) ∧
     exitStatus (mainFlow (ResolveResult.importError msg) live broker sarg
       earg confirm now sf) = 1 ∧
     mainBrokerConstructed (mainFlow (ResolveResult.importError msg) live
       broker sarg earg confirm now sf) = false ∧
     mainBacktestInvoked (mainFlow (ResolveResult.importError msg) live broker
       sarg earg confirm now sf) = false) ∧
    (find_strategy_class m = none →
     mainFlow (ResolveResult.ok m) live broker sarg earg confirm now sf
      = MainOutcome.exitError
          ("Error importing strategy: No strategy class found in the module "
            ++ rsplit_head sf ++ ".") ∧
     exitStatus (mainFlow (ResolveResult.ok m) live broker sarg earg confirm
       now sf) = 1 ∧
     mainBrokerConstructed (mainFlow (ResolveResult.ok m) live broker sarg
       earg confirm now sf) = false ∧
     mainBacktestInvoked (mainFlow (ResolveResult.ok m) live broker sarg earg
       confirm now sf) = false) := by
  constructor
  · exact ⟨rfl, rfl, rfl, rfl⟩
  · intro hn
    have h : mainFlow (ResolveResult.ok m) live broker sarg earg confirm now
        sf
      = MainOutcome.exitError
          ("Error importing strategy: No strategy class found in the module "
            ++ rsplit_head sf ++ ".") := by
      simp only [mainFlow, hn]
    refine ⟨h, ?_, ?_, ?_⟩ <;> rw [h] <;> rfl

theorem resolution_failure_exits_nonzero_witness :
    mainFlow (ResolveResult.ok emptyModule) false "Kraken" none none "x" 0
        "empty_mod.py"
      = MainOutcome.exitError
          ("Error importing strategy: No strategy class found in the module "
            ++ rsplit_head "empty_mod.py" ++ ".") ∧
    exitStatus (mainFlow (ResolveResult.ok emptyModule) false "Kraken" none
      none "x" 0 "empty_mod.py") = 1 ∧
    mainBrokerConstructed (mainFlow (ResolveResult.ok emptyModule) false
      "Kraken" none none "x" 0 "empty_mod.py") = false ∧
    mainBacktestInvoked (mainFlow (ResolveResult.ok emptyModule) false
      "Kraken" none none "x" 0 "empty_mod.py") = false :=
  (resolution_failure_exits_nonzero "boom" emptyModule false "Kraken" none
    none "x" 0 "empty_mod.py").2 (by decide)

end RunStrategy

namespace RunStrategy

/-- C7 counterexample: a live invocation whose confirmation is declined
creates zero sessions, not exactly one — the dispatcher cancels and exits
without ever creating a live or a backtest session. -/
theorem cancelled_invocation_creates_no_session :
    mainFlow (ResolveResult.ok sampleModule) true "Kraken" none none "no" 0
        "my_strategy.py"
      = MainOutcome.ran RunOutcome.cancelled ∧
    mainSessionsCreated (mainFlow (ResolveResult.ok sampleModule) true
      "Kraken" none none "no" 0 "my_strategy.py") = 0 := by
  decide

/-- C7 (amended): at most one session is created per invocation, never both
kinds: a live invocation never invokes the backtest engine, and a non-live
invocation never constructs a BrokerConnection or starts the live runner. -/
theorem at_most_one_session (resolve : ResolveResult) (live : Bool)
    (broker : String) (sarg earg : Option String) (confirm : String) (now : ℚ)
    (sf : String) :
    mainSessionsCreated (mainFlow resolve live broker sarg earg confirm now
      sf) ≤ 1 ∧
    (live = true →
      mainBacktestInvoked (mainFlow resolve live broker sarg earg confirm now
        sf) = false) ∧
    (live = false →
      mainBrokerConstructed (mainFlow resolve live broker sarg earg confirm
        now sf) = false ∧
      mainRunnerStarted (mainFlow resolve live broker sarg earg confirm now
        sf) = false) := by
  cases resolve with
  | importError msg =>
    exact ⟨by simp [mainFlow, mainSessionsCreated], fun _ => rfl,
      fun _ => ⟨rfl, rfl⟩⟩
  | ok m =>
    cases hf : find_strategy_class m with
    | none =>
      refine ⟨?_, fun _ => ?_, fun _ => ⟨?_, ?_⟩⟩ <;>
        simp [mainFlow, hf, mainSessionsCreated, mainBacktestInvoked,
          mainBrokerConstructed, mainRunnerStarted]
    | some cls =>
      cases hsd : parse_date_arg sarg with
      | error e =>
        refine ⟨?_, fun _ => ?_, fun _ => ⟨?_, ?_⟩⟩ <;>
          simp [mainFlow, hf, hsd, mainSessionsCreated, mainBacktestInvoked,
            mainBrokerConstructed, mainRunnerStarted]
      | ok sd =>
        cases hed : parse_date_arg earg with
        | error e =>
          refine ⟨?_, fun _ => ?_, fun _ => ⟨?_, ?_⟩⟩ <;>
            simp [mainFlow, hf, hsd, hed, mainSessionsCreated,
              mainBacktestInvoked, mainBrokerConstructed, mainRunnerStarted]
        | ok ed =>
          rw [mainFlow_ok_reduce m cls live broker sarg earg sd ed confirm now
            sf hf hsd hed]
          cases live with
          | false =>
            refine ⟨?_, ?_, ?_⟩
            · simp [run_strategy, mainSessionsCreated, sessionsCreated]
            · intro h; cases h
            · intro _; exact ⟨rfl, rfl⟩
          | true =>
            by_cases hc : str_lower confirm = "yes"
            · refine ⟨?_, fun _ => ?_, fun h => by cases h⟩ <;>
                simp [run_strategy, hc, mainSessionsCreated, sessionsCreated,
                  mainBacktestInvoked, backtestInvoked]
            · refine ⟨?_, fun _ => ?_, fun h => by cases h⟩ <;>
                simp [run_strategy, hc, mainSessionsCreated, sessionsCreated,
                  mainBacktestInvoked, backtestInvoked]

theorem at_most_one_session_witness :
    mainBacktestInvoked (mainFlow (ResolveResult.ok sampleModule) true
      "Kraken" none none "no" 0 "my_strategy.py") = false ∧
    mainBrokerConstructed (mainFlow (ResolveResult.ok sampleModule) false
      "Kraken" none none "no" 0 "my_strategy.py") = false ∧
    mainRunnerStarted (mainFlow (ResolveResult.ok sampleModule) false "Kraken"
      none none "no" 0 "my_strategy.py") = false :=
  ⟨(at_most_one_session (ResolveResult.ok sampleModule) true "Kraken" none
      none "no" 0 "my_strategy.py").2.1 rfl,
   (at_most_one_session (ResolveResult.ok sampleModule) false "Kraken" none
      none "no" 0 "my_strategy.py").2.2 rfl⟩

/-- C9: every backtest invocation calls the backtest engine with the same
single flat-percentage fee on the buy and on the sell leg, the fixed
risk-free rate 5.233, the paid-subscription flag set, an empty extra
parameters mapping, and a logfile path `logs/<basename>.log` where the
basename is the strategy file argument with its extension stripped. -/
theorem backtest_call_parameters (m : Module) (cls : PyClass)
    (broker confirm sf : String) (sarg earg : Option String)
    (sd ed : Option ℚ) (now : ℚ)
    (hfind : find_strategy_class m = some cls)
    (hs : parse_date_arg sarg = Except.ok sd)
    (he : parse_date_arg earg = Except.ok ed) :
    ∃ call : BacktestCall,
      mainFlow (ResolveResult.ok m) false broker sarg earg confirm now sf
        = MainOutcome.ran (RunOutcome.backtestStarted cls call) ∧
      call.buy_trading_fees = [⟨0.005⟩] ∧
      call.sell_trading_fees = call.buy_trading_fees ∧
      call.risk_free_rate = 5.233 ∧
      call.polygon_has_paid_subscription = true ∧
      call.parameters = [] ∧
      call.logfile = "logs/" ++ rsplit_head sf ++ ".log" ∧
      call.backtesting_start = (run_window now sd ed).1 ∧
      call.backtesting_end = (run_window now sd ed).2 := by
  refine ⟨{ backtesting_start := (run_window now sd ed).1
            backtesting_end := (run_window now sd ed).2
            polygon_api_key := POLYGON_API_KEY
            polygon_has_paid_subscription := true
            risk_free_rate := 5.233
            buy_trading_fees := [⟨0.005⟩]
            sell_trading_fees := [⟨0.005⟩]
            logfile := "logs/" ++ rsplit_head sf ++ ".log"
            parameters := [] },
    ?_, rfl, rfl, rfl, rfl, rfl, rfl, rfl, rfl⟩
  rw [mainFlow_ok_reduce m cls false broker sarg earg sd ed confirm now sf
    hfind hs he]
  rfl

theorem backtest_call_parameters_witness :
    ∃ call : BacktestCall,
      mainFlow (ResolveResult.ok sampleModule) false "Kraken" none none "x" 0
          "my_strategy.py"
        = MainOutcome.ran
            (RunOutcome.backtestStarted ⟨"MyStrategy", "my_strategy"⟩ call) ∧
      call.buy_trading_fees = [⟨0.005⟩] ∧
      call.sell_trading_fees = call.buy_trading_fees ∧
      call.risk_free_rate = 5.233 ∧
      call.polygon_has_paid_subscription = true ∧
      call.parameters = [] ∧
      call.logfile = "logs/" ++ rsplit_head "my_strategy.py" ++ ".log" ∧
      call.backtesting_start = (run_window 0 none none).1 ∧
      call.backtesting_end = (run_window 0 none none).2 :=
  backtest_call_parameters sampleModule ⟨"MyStrategy", "my_strategy"⟩ "Kraken"
    "x" "my_strategy.py" none none none none 0 (by decide) rfl rfl

/-- C10 counterexample: the flag value `--start ""` is supplied and is not a
well-formed date, yet no exception is raised: the empty string is falsy, so
the script silently treats it as absent and runs the backtest to a successful
exit. -/
theorem empty_date_arg_no_exception :
    strptime_date "" = none ∧
    mainBacktestInvoked (mainFlow (ResolveResult.ok sampleModule) false
      "Kraken" (some "") none "x" 0 "my_strategy.py") = true ∧
    exitStatus (mainFlow (ResolveResult.ok sampleModule) false "Kraken"
      (some "") none "x" 0 "my_strategy.py") = 0 := by
  refine ⟨rfl, ?_, ?_⟩ <;> decide

/-- C10 (amended): when `--start` or `--end` is supplied with a nonempty value
that is not a well-formed `YYYY-MM-DD` date, parsing raises an uncaught
`ValueError` after strategy resolution has succeeded: the process terminates
nonzero, no broker or backtest logic runs, and the resolution-error message
path is not taken; a supplied empty string is instead treated as absent. -/
theorem malformed_date_uncaught (m : Module) (cls : PyClass) (live : Bool)
    (broker confirm : String) (s : String) (sarg earg : Option String)
    (sd : Option ℚ) (now : ℚ) (sf : String)
    (hfind : find_strategy_class m = some cls)
    (hne : s ≠ "")
    (hbad : strptime_date s = none) :
    (mainFlow (ResolveResult.ok m) live broker (some s) earg confirm now sf
       = MainOutcome.uncaughtException PyError.ValueError ∧
     exitStatus (mainFlow (ResolveResult.ok m) live broker (some s) earg
       confirm now sf) = 1 ∧
     mainBrokerConstructed (mainFlow (ResolveResult.ok m) live broker (some s)
       earg confirm now sf) = false ∧
     mainBacktestInvoked (mainFlow (ResolveResult.ok m) live broker (some s)
       earg confirm now sf) = false ∧
     ∀ msg, mainFlow (ResolveResult.ok m) live broker (some s) earg confirm
       now sf ≠ MainOutcome.exitError msg) ∧
    (parse_date_arg sarg = Except.ok sd →
     mainFlow (ResolveResult.ok m) live broker sarg (some s) confirm now sf
       = MainOutcome.uncaughtException PyError.ValueError) := by
  have hp : parse_date_arg (some s) = Except.error PyError.ValueError := by
    simp only [parse_date_arg]
    rw [if_neg hne, hbad]
  constructor
  · have h : mainFlow (ResolveResult.ok m) live broker (some s) earg confirm
        now sf = MainOutcome.uncaughtException PyError.ValueError := by
      simp only [mainFlow, hfind, hp]
    refine ⟨h, ?_, ?_, ?_, ?_⟩
    · rw [h]; rfl
    · rw [h]; rfl
    · rw [h]; rfl
    · intro msg
      rw [h]
      intro hcon
      exact MainOutcome.noConfusion hcon
  · intro hsd
    simp only [mainFlow, hfind, hsd, hp]

theorem malformed_date_uncaught_witness :
    mainFlow (ResolveResult.ok sampleModule) false "Kraken"
        (some "not-a-date") none "x" 0 "my_strategy.py"
      = MainOutcome.uncaughtException PyError.ValueError ∧
    exitStatus (mainFlow (ResolveResult.ok sampleModule) false "Kraken"
      (some "not-a-date") none "x" 0 "my_strategy.py") = 1 ∧
    mainBrokerConstructed (mainFlow (ResolveResult.ok sampleModule) false
      "Kraken" (some "not-a-date") none "x" 0 "my_strategy.py") = false ∧
    mainBacktestInvoked (mainFlow (ResolveResult.ok sampleModule) false
      "Kraken" (some "not-a-date") none "x" 0 "my_strategy.py") = false ∧
    ∀ msg, mainFlow (ResolveResult.ok sampleModule) false "Kraken"
      (some "not-a-date") none "x" 0 "my_strategy.py"
        ≠ MainOutcome.exitError msg :=
  (malformed_date_uncaught sampleModule ⟨"MyStrategy", "my_strategy"⟩ false
    "Kraken" "x" "not-a-date" none none none 0 "my_strategy.py" (by decide)
    (by decide) rfl).1

end RunStrategy
